import Mathlib

/-!
# Formal model of the `backend_k` user-account backend

A shallow embedding of the authentication and administration subsystem of the
Express/Mongoose backend: identity-field validation (phone, email, name,
password, date of birth, bio), the signup/login controllers, the admin login
controller, the admin user-management operations, and the profile-picture
upload phase.  The persistent MongoDB collection is modelled as an explicit
list of user records threaded through each handler; each handler is a pure
function from request data and store to a response paired with the resulting
store.  External collaborators (bcryptjs, jsonwebtoken, Cloudinary, the file
system) are modelled by their interfaces as used by the controllers.
-/

namespace BackendK

/-! ## Character and string helpers -/

/-- JavaScript regex `\d`. -/
def isDigitChar (c : Char) : Bool := c.isDigit

/-- JavaScript regex `\w` = `[A-Za-z0-9_]`. -/
def isWordChar (c : Char) : Bool := c.isAlphanum || c == '_'

/-- The two separator characters `[.-]` of the email regex. -/
def isSepChar (c : Char) : Bool := c == '.' || c == '-'

/-- Model of the trimming applied by JS `String.prototype.trim` and the
mongoose `trim: true` setter: whitespace removed from both ends. -/
def trimString (s : String) : String :=
  ⟨((s.data.dropWhile Char.isWhitespace).reverse.dropWhile Char.isWhitespace).reverse⟩

/-- Model of the mongoose `lowercase: true` setter (JS `toLowerCase`). -/
def lowerString (s : String) : String :=
  ⟨s.data.map Char.toLower⟩

/-! ## Phone-number validation

`authController.signup`, `authController.updatePhoneNumber` and
`userController.editProfile` all contain the identical block:

    processedPhoneNumber = phoneNumber.replace(/[^\d+]/g, '');
    if (!processedPhoneNumber.startsWith('+')) { ... 400 ... }
    if (!/^\+[1-9]\d{1,14}$/.test(processedPhoneNumber)) { ... 400 ... }
-/

/-- `phoneNumber.replace(/[^\d+]/g, '')`: delete every character that is
neither a digit nor `'+'`. -/
def stripPhone (s : String) : String :=
  ⟨s.data.filter (fun c => isDigitChar c || c == '+')⟩

/-- `processedPhoneNumber.startsWith('+')`. -/
def startsWithPlus (s : String) : Bool :=
  match s.data with
  | c :: _ => c == '+'
  | [] => false

/-- Regex `[1-9]`: a decimal digit other than `'0'`. -/
def isNonZeroDigit (c : Char) : Bool := isDigitChar c && !(c == '0')

/-- The regex `/^\+[1-9]\d{1,14}$/`: a `'+'`, a nonzero digit, then 1 to 14
further digits. -/
def matchesE164 (s : String) : Bool :=
  match s.data with
  | c :: d :: rest =>
      c == '+' && isNonZeroDigit d && decide (1 ≤ rest.length) &&
        decide (rest.length ≤ 14) && rest.all isDigitChar
  | _ => false

/-- The schema-level `match` regex `/^[\+]?[1-9][\d]{0,15}$/` on
`userSchema.phoneNumber`: optional `'+'`, a nonzero digit, then 0 to 15
further digits. -/
def matchesLoosePhone (s : String) : Bool :=
  match s.data with
  | '+' :: d :: rest =>
      isNonZeroDigit d && decide (rest.length ≤ 15) && rest.all isDigitChar
  | d :: rest =>
      isNonZeroDigit d && decide (rest.length ≤ 15) && rest.all isDigitChar
  | [] => false

/-- A plain HTTP JSON error/success envelope `{status, success, message}`. -/
structure Resp where
  status : Nat
  success : Bool
  message : String
deriving DecidableEq, Repr

/-- The shared phone-processing block (strip, `startsWith('+')` check, E.164
regex check), returning either the early 400 response or the processed
number. -/
def processPhone (phone : String) : Except Resp String :=
  let processed := stripPhone phone
  if !(startsWithPlus processed) then
    .error ⟨400, false, "Phone number must start with country code (e.g., +91 for India)"⟩
  else if !(matchesE164 processed) then
    .error ⟨400, false, "Invalid phone number format. Please include country code (e.g., +911234567890)"⟩
  else
    .ok processed

/-! ## Email validation

The schema regex `/^\w+([.-]?\w+)*@\w+([.-]?\w+)*(\.\w{2,3})+$/`.

The sub-language `\w+([.-]?\w+)*` (used for the local part and the domain
body) is exactly the set of nonempty strings over `\w ∪ {., -}` that begin
and end with a `\w` character and contain no two adjacent separators: each
starred group contributes at most one separator followed by at least one
word character.  The trailing `(\.\w{2,3})+` is parsed by a deterministic
recursion: after a dot and two word characters, a third word character must
be consumed if present (a group can never be followed directly by a word
character), after which the rest must be empty or start a new dot group.
The split between `\w+([.-]?\w+)*` and `(\.\w{2,3})+` after the `@`, and the
position of the `@` itself, are resolved by trying every split, which is the
regex's nondeterministic-choice semantics. -/

/-- No two adjacent separator characters. -/
def noAdjacentSeps : List Char → Bool
  | a :: b :: rest => !(isSepChar a && isSepChar b) && noAdjacentSeps (b :: rest)
  | _ => true

/-- The language of `\w+([.-]?\w+)*`. -/
def isWordBody (l : List Char) : Bool :=
  match l with
  | [] => false
  | c :: _ =>
      isWordChar c && l.all (fun a => isWordChar a || isSepChar a) &&
        (match l.getLast? with
         | some z => isWordChar z
         | none => false) &&
        noAdjacentSeps l

/-- The language of `(\.\w{2,3})+`. -/
def isTldGroups : List Char → Bool
  | ['.', c1, c2] => isWordChar c1 && isWordChar c2
  | '.' :: c1 :: c2 :: c3 :: rest2 =>
      isWordChar c1 && isWordChar c2 &&
        (if isWordChar c3 then
           match rest2 with
           | [] => true
           | '.' :: _ => isTldGroups rest2
           | _ => false
         else
           isTldGroups (c3 :: rest2))
  | _ => false

/-- The language of `\w+([.-]?\w+)*(\.\w{2,3})+` (everything after `@`). -/
def isDomainPart (l : List Char) : Bool :=
  (List.range (l.length + 1)).any fun i =>
    isWordBody (l.take i) && isTldGroups (l.drop i)

/-- The anchored schema email regex
`/^\w+([.-]?\w+)*@\w+([.-]?\w+)*(\.\w{2,3})+$/`. -/
def emailMatch (s : String) : Bool :=
  let cs := s.data
  (List.range (cs.length + 1)).any fun i =>
    match cs.drop i with
    | '@' :: dom => isWordBody (cs.take i) && isDomainPart dom
    | _ => false

/-! ## External collaborators: bcryptjs and jsonwebtoken -/

/-- Model of `bcrypt.hash(password, salt)` from the `bcryptjs` library: the
digest is an opaque 60-character string (`$2a$10$` followed by a 53-character
salt-and-hash block).  The controllers never inspect the digest's content,
only store it and feed it back to `bcrypt.compare`; the one property of the
interface the repository's behaviour depends on is the fixed 60-character
length of the output. -/
def bcryptHash (_plain : String) : String :=
  "$2a$10$" ++ ⟨List.replicate 53 'h'⟩

/-- Model of `bcrypt.compare(plain, digest)`: true exactly when the digest
is the hash of the plaintext. -/
def bcryptCompare (plain digest : String) : Bool :=
  digest == bcryptHash plain

/-- The application-chosen JWT claims: `jwt.sign` is always called with
`{ userId }` for users and `{ userId, email, role }` for the admin. -/
structure JwtPayload where
  userId : String
  email : Option String
  role : Option String
deriving DecidableEq, Repr

/-- Model of a token produced by `jwt.sign(payload, secret, {expiresIn})`:
the signed claims plus the relative expiry in seconds (`'30d'` = 2592000,
`'24h'` = 86400 as parsed by jsonwebtoken). -/
structure IssuedToken where
  payload : JwtPayload
  expiresInSeconds : Nat
deriving DecidableEq, Repr

/-- `generateToken` from `authController.js`:
`jwt.sign({ userId }, process.env.JWT_SECRET, { expiresIn: '30d' })`. -/
def generateToken (userId : String) : IssuedToken :=
  ⟨⟨userId, none, none⟩, 30 * 24 * 60 * 60⟩

/-! ## The user record and the credential store

The mongoose `User` model (`models/User.js`), restricted to the fields the
verified handlers read, write or validate.  `gender`, `address`,
`socialLinks` and `profilePicture` carry no constraint used by any modelled
handler and are omitted; timestamps other than `lastLoginAt` are likewise
omitted.  An absent `phoneNumber`/`bio` is the empty string (JS falsy), an
absent `dateOfBirth` is `none`. -/

structure StoredUser where
  id : String
  firstName : String
  lastName : String
  email : String
  password : String
  dateOfBirth : Option Int
  phoneNumber : String
  bio : String
  isActive : Bool
  isVerified : Bool
  role : String
  lastLoginAt : Option Int
deriving DecidableEq, Repr

/-- The MongoDB `users` collection. -/
structure Store where
  users : List StoredUser
deriving DecidableEq, Repr

/-- `User.findOne({ email })`. -/
def findOneByEmail (st : Store) (email : String) : Option StoredUser :=
  st.users.find? (fun u => u.email == email)

/-- `User.findOne({ phoneNumber })`. -/
def findOneByPhone (st : Store) (phone : String) : Option StoredUser :=
  st.users.find? (fun u => u.phoneNumber == phone)

/-- `User.findOne({ phoneNumber, _id: { $ne: selfId } })`. -/
def findOtherByPhone (st : Store) (phone selfId : String) : Option StoredUser :=
  st.users.find? (fun u => u.phoneNumber == phone && !(u.id == selfId))

/-- `User.findById(id)`. -/
def findById (st : Store) (id : String) : Option StoredUser :=
  st.users.find? (fun u => u.id == id)

/-- `user.save()` on an existing document / `User.findByIdAndUpdate`. -/
def saveUser (st : Store) (u : StoredUser) : Store :=
  ⟨st.users.map (fun v => if v.id == u.id then u else v)⟩

/-- `User.findByIdAndDelete(id)` / `deleteMany` on one id. -/
def removeById (st : Store) (id : String) : Store :=
  ⟨st.users.filter (fun u => !(u.id == id))⟩

/-- A hexadecimal digit. -/
def isHexChar (c : Char) : Bool :=
  c.isDigit || (decide ('a' ≤ c) && decide (c ≤ 'f')) || (decide ('A' ≤ c) && decide (c ≤ 'F'))

/-- Model of Mongoose's ObjectId cast (`ObjectId.isValid`): a 24-character
hexadecimal string, or any 12-character string (taken as 12 raw bytes).
Queries that must cast an `_id` value — `findById`, `findByIdAndUpdate`,
`findByIdAndDelete`, `$ne`/`$in` on `_id` — reject with a `CastError` when
the value is not castable; the handlers' `catch` blocks turn that into a
500 `Internal server error` response. -/
def isCastableObjectId (id : String) : Bool :=
  id.length == 12 || (id.length == 24 && id.data.all isHexChar)

/-! ## Mongoose schema validation

One validator chain per path, in schema order; mongoose records at most one
error per path and `Object.values(error.errors).map(err => err.message)`
then yields one message per invalid path.  Setters (`trim`, `lowercase`)
run before validation, so the validators below receive the stored
(already-normalized) values. -/

/-- `firstName`: `required`, `maxlength 50` (after `trim`). -/
def firstNameError (v : String) : Option String :=
  if v == "" then some "First name is required"
  else if decide (50 < v.length) then some "First name cannot exceed 50 characters"
  else none

/-- `lastName`: `required`, `maxlength 50` (after `trim`). -/
def lastNameError (v : String) : Option String :=
  if v == "" then some "Last name is required"
  else if decide (50 < v.length) then some "Last name cannot exceed 50 characters"
  else none

/-- `email`: `required`, `match` (after `trim` and `lowercase`); the
`match` validator skips empty values, which the `required` check already
rejects. -/
def emailError (v : String) : Option String :=
  if v == "" then some "Email is required"
  else if !(emailMatch v) then some "Please enter a valid email"
  else none

/-- `password`: `required`, `minlength 6` — validated against the *stored*
value, which the controllers set to the bcrypt digest. -/
def passwordError (v : String) : Option String :=
  if v == "" then some "Password is required"
  else if decide (v.length < 6) then some "Password must be at least 6 characters"
  else none

/-- `dateOfBirth`: custom validator `v <= new Date()` (skipped when the
path is absent). -/
def dobError (now : Int) (v : Option Int) : Option String :=
  match v with
  | none => none
  | some d => if decide (d ≤ now) then none else some "Date of birth cannot be in the future"

/-- `phoneNumber`: the `match` regex then the custom validator; both skip
empty values. -/
def phoneError (v : String) : Option String :=
  if v == "" then none
  else if !(matchesLoosePhone v) then
    some "Please enter a valid phone number with country code"
  else if !(matchesE164 v) then
    some "Phone number must start with + followed by country code and number (e.g., +911234567890)"
  else none

/-- `bio`: `maxlength 500`, not required. -/
def bioError (v : String) : Option String :=
  if decide (500 < v.length) then some "Bio cannot exceed 500 characters"
  else none

/-- The full document validation run by `save()` / `runValidators`: the
batch of messages, one per invalid path, in schema path order. -/
def validateDoc (now : Int) (u : StoredUser) : List String :=
  (firstNameError u.firstName).toList ++
  (lastNameError u.lastName).toList ++
  (emailError u.email).toList ++
  (passwordError u.password).toList ++
  (dobError now u.dateOfBirth).toList ++
  (phoneError u.phoneNumber).toList ++
  (bioError u.bio).toList

/-- `document.toObject()`: the persisted fields as a key/value object
(values stringified; `"null"` stands for JS `null`). -/
def toObject (u : StoredUser) : List (String × String) :=
  [("_id", u.id),
   ("firstName", u.firstName),
   ("lastName", u.lastName),
   ("email", u.email),
   ("password", u.password),
   ("dateOfBirth", match u.dateOfBirth with | none => "null" | some d => toString d),
   ("phoneNumber", u.phoneNumber),
   ("bio", u.bio),
   ("isActive", if u.isActive then "true" else "false"),
   ("isVerified", if u.isVerified then "true" else "false"),
   ("role", u.role),
   ("lastLoginAt", match u.lastLoginAt with | none => "null" | some d => toString d),
   ("__v", "0")]

/-- `userSchema.methods.getPublicProfile`: `toObject()` with the
`password` and `__v` keys deleted. -/
def getPublicProfile (u : StoredUser) : List (String × String) :=
  (toObject u).filter (fun kv => !(kv.1 == "password") && !(kv.1 == "__v"))

/-! ## `authController.signup` -/

/-- The signup request body (multipart file absent; the profile-picture
upload phase is modelled separately by `profileUploadPhase`).  Absent string
fields are `""` (JS falsy), an absent `dateOfBirth` is `none`. -/
structure SignupInput where
  firstName : String
  lastName : String
  email : String
  password : String
  dateOfBirth : Option Int
  phoneNumber : String
  bio : String
deriving DecidableEq, Repr

/-- Outcome of a signup or login handler: the HTTP envelope, the
per-field validation messages (the `errors` array, empty when the key is
absent from the JSON), the `data` payload (public user object plus token)
and the resulting store. -/
structure AuthResult where
  status : Nat
  success : Bool
  message : String
  errors : List String
  data : Option (List (String × String) × IssuedToken)
  store : Store
deriving DecidableEq, Repr

/-- The phone block of `signup`: run only when `phoneNumber` is truthy;
strip/format checks, then the uniqueness lookup
`User.findOne({ phoneNumber: processedPhoneNumber })`. -/
def signupPhoneStep (st : Store) (phone : String) : Except Resp String :=
  if phone == "" then .ok phone
  else
    match processPhone phone with
    | .error r => .error r
    | .ok processed =>
        match findOneByPhone st processed with
        | some _ => .error ⟨400, false, "Phone number already registered"⟩
        | none => .ok processed

/-- Document construction `new User({...})` with the schema setters
applied: `trim` on names, `trim` + `lowercase` on email, the bcrypt digest
as the stored password, schema defaults for the status fields. -/
def buildDoc (newId : String) (inp : SignupInput) (processedPhone : String) : StoredUser :=
  { id := newId
    firstName := trimString inp.firstName
    lastName := trimString inp.lastName
    email := lowerString (trimString inp.email)
    password := bcryptHash inp.password
    dateOfBirth := inp.dateOfBirth
    phoneNumber := processedPhone
    bio := inp.bio
    isActive := true
    isVerified := false
    role := "user"
    lastLoginAt := none }

/-- `authController.signup` (no file attached): duplicate-email check,
phone block, hash, `save()` (schema validation; a `ValidationError` is
caught and surfaced as a 400 with the batch of field messages), then the
201 response carrying `getPublicProfile()` and a fresh 30-day token. -/
def signup (st : Store) (now : Int) (newId : String) (inp : SignupInput) : AuthResult :=
  match findOneByEmail st inp.email with
  | some _ => ⟨400, false, "User with this email already exists", [], none, st⟩
  | none =>
    match signupPhoneStep st inp.phoneNumber with
    | .error r => ⟨r.status, r.success, r.message, [], none, st⟩
    | .ok processed =>
        if (validateDoc now (buildDoc newId inp processed)).isEmpty then
          ⟨201, true, "User registered successfully", [],
            some (getPublicProfile (buildDoc newId inp processed),
                  generateToken (buildDoc newId inp processed).id),
            ⟨st.users ++ [buildDoc newId inp processed]⟩⟩
        else
          ⟨400, false, "Validation failed", validateDoc now (buildDoc newId inp processed),
            none, st⟩

/-! ## `authController.login` -/

/-- `authController.login`: presence check, `findOne({email})`,
`isActive` check, `bcrypt.compare`, then `lastLoginAt` update + `save()`
and the 200 response with a fresh 30-day token. -/
def login (st : Store) (email password : String) (now : Int) : AuthResult :=
  if email == "" || password == "" then
    ⟨400, false, "Please provide email and password", [], none, st⟩
  else
    match findOneByEmail st email with
    | none => ⟨401, false, "Invalid email or password", [], none, st⟩
    | some u =>
        if !u.isActive then
          ⟨401, false, "Account is deactivated. Please contact support.", [], none, st⟩
        else if !(bcryptCompare password u.password) then
          ⟨401, false, "Invalid email or password", [], none, st⟩
        else
          ⟨200, true, "Login successful", [],
            some (getPublicProfile { u with lastLoginAt := some now },
                  generateToken u.id),
            saveUser st { u with lastLoginAt := some now }⟩

/-! ## `authController.updatePhoneNumber` -/

/-- `authController.updatePhoneNumber`: required check, the shared phone
block, the self-excluding uniqueness lookup (whose `$ne` cast of
`req.user.userId` rejects for a non-castable id, caught as a 500), then
`findByIdAndUpdate(req.user.userId, { phoneNumber })`. -/
def updatePhoneNumber (st : Store) (reqUserId phone : String) : Resp × Store :=
  if phone == "" then (⟨400, false, "Phone number is required"⟩, st)
  else
    match processPhone phone with
    | .error r => (r, st)
    | .ok processed =>
        if !(isCastableObjectId reqUserId) then
          (⟨500, false, "Internal server error"⟩, st)
        else
        match findOtherByPhone st processed reqUserId with
        | some _ => (⟨400, false, "Phone number already registered by another user"⟩, st)
        | none =>
            match findById st reqUserId with
            | none => (⟨404, false, "User not found"⟩, st)
            | some u =>
                (⟨200, true, "Phone number updated successfully"⟩,
                  saveUser st { u with phoneNumber := processed })

/-! ## `adminController.adminLogin` -/

/-- The two admin secrets read from `process.env`; `none` models an unset
variable and `some ""` an empty one — both falsy in JS. -/
structure AdminConfig where
  adminEmail : Option String
  adminPassword : Option String
deriving DecidableEq, Repr

/-- JS truthiness of an environment variable. -/
def truthy : Option String → Bool
  | none => false
  | some s => !(s == "")

/-- The synthesized `adminUser` object placed in the admin-login response. -/
structure AdminUser where
  id : String
  email : String
  role : String
  firstName : String
  lastName : String
deriving DecidableEq, Repr

/-- Outcome of `adminLogin`: the HTTP envelope plus the `data` payload
(token and admin user object) on success. -/
structure AdminLoginResult where
  status : Nat
  success : Bool
  message : String
  data : Option (IssuedToken × AdminUser)
deriving DecidableEq, Repr

/-- `adminController.adminLogin`: request-field presence check,
configuration presence check, exact string comparison of each credential
(each mismatch yielding the identical generic 401), then a 24-hour token
carrying `{ userId: 'admin', email, role: 'admin' }`. -/
def adminLogin (cfg : AdminConfig) (email password : String) : AdminLoginResult :=
  if email == "" || password == "" then
    ⟨400, false, "Email and password are required", none⟩
  else if !(truthy cfg.adminEmail) || !(truthy cfg.adminPassword) then
    ⟨500, false, "Admin configuration error", none⟩
  else if !(email == cfg.adminEmail.getD "") then
    ⟨401, false, "Invalid admin credentials", none⟩
  else if !(password == cfg.adminPassword.getD "") then
    ⟨401, false, "Invalid admin credentials", none⟩
  else
    ⟨200, true, "Admin login successful",
      some (⟨⟨"admin", some (cfg.adminEmail.getD ""), some "admin"⟩, 24 * 60 * 60⟩,
            ⟨"admin", cfg.adminEmail.getD "", "admin", "Admin", "User"⟩)⟩

/-! ## The Cloudinary upload phase

The block shared by `signup`, `updateProfilePicture` and `editProfile`:

    try {
      const uploadResult = await uploadToCloudinary(req.file.path, ...);
      if (uploadResult.success) { profilePictureUrl = uploadResult.url; }
      else { return res.status(500).json(...); }
      fs.unlinkSync(req.file.path);
    } catch (uploadError) {
      if (req.file && req.file.path && fs.existsSync(req.file.path)) {
        fs.unlinkSync(req.file.path);
      }
      return res.status(500).json(...);
    }
-/

/-- How the `uploadToCloudinary` call can end: a success report carrying
the URL, a failure report (`{success: false}` — the wrapper catches the
library error and returns this), or a thrown exception reaching the
handler's `catch`. -/
inductive UploadOutcome where
  | ok (url : String)
  | failReported (err : String)
  | threw
deriving DecidableEq, Repr

/-- State after the upload phase: the early error response if any, the
obtained URL if any, and whether the multer temp file is still on disk. -/
structure UploadPhaseResult where
  resp : Option Resp
  url : Option String
  fileOnDisk : Bool
deriving DecidableEq, Repr

/-- The upload phase, given whether a file was attached (`req.file`) and
the outcome of the Cloudinary call.  The `unlinkSync` after the success
branch is reached only when the call reported success; the failure-report
branch returns first, and the `catch` branch deletes the file before
returning. -/
def profileUploadPhase (hasFile : Bool) (outcome : UploadOutcome) : UploadPhaseResult :=
  if hasFile then
    match outcome with
    | .ok url => ⟨none, some url, false⟩
    | .failReported _ => ⟨some ⟨500, false, "Failed to upload profile picture"⟩, none, true⟩
    | .threw => ⟨some ⟨500, false, "Failed to upload profile picture"⟩, none, false⟩
  else ⟨none, none, false⟩

/-! ## Admin user-management operations -/

/-- `User.updateMany({_id: {$in: ids}}, {isActive})`. -/
def setActiveMany (st : Store) (ids : List String) (isActive : Bool) : Store :=
  ⟨st.users.map (fun u => if ids.contains u.id then { u with isActive } else u)⟩

/-- `User.deleteMany({_id: {$in: ids}})`. -/
def removeMany (st : Store) (ids : List String) : Store :=
  ⟨st.users.filter (fun u => !(ids.contains u.id))⟩

/-- `adminController.deleteUser`: `findById(id)` (a non-castable id makes
the query reject, and the `catch` returns 500), the 404 on a missing
target, then the self-deletion guard `id === req.user._id.toString()`,
then `findByIdAndDelete`. -/
def deleteUserOp (st : Store) (reqUserId targetId : String) : Resp × Store :=
  if !(isCastableObjectId targetId) then
    (⟨500, false, "Internal server error"⟩, st)
  else
    match findById st targetId with
    | none => (⟨404, false, "User not found"⟩, st)
    | some _ =>
        if targetId == reqUserId then
          (⟨400, false, "Cannot delete your own account"⟩, st)
        else
          (⟨200, true, "User deleted successfully"⟩, removeById st targetId)

/-- `adminController.toggleUserStatus`: `findById(id)` (non-castable id →
rejected query → 500 from the `catch`), the 404 on a missing target, then
the self-deactivation guard (`id === req.user._id.toString() &&
!isActive`), then `findByIdAndUpdate(id, { isActive })`. -/
def toggleUserStatusOp (st : Store) (reqUserId targetId : String) (isActive : Bool) :
    Resp × Store :=
  if !(isCastableObjectId targetId) then
    (⟨500, false, "Internal server error"⟩, st)
  else
    match findById st targetId with
    | none => (⟨404, false, "User not found"⟩, st)
    | some u =>
        if targetId == reqUserId && !isActive then
          (⟨400, false, "Cannot deactivate your own account"⟩, st)
        else
          (⟨200, true,
             if isActive then "User activated successfully" else "User deactivated successfully"⟩,
            saveUser st { u with isActive })

/-- `adminController.bulkOperations`: input presence check, the
self-inclusion guard `userIds.includes(req.user._id.toString())`, then the
selected mass update/delete (whose `$in` cast rejects on a non-castable
element, caught as a 500; the unknown-operation 400 fires before any
query).  `modifiedCount` counts documents whose `isActive` actually
changes; `deletedCount` counts matched documents. -/
def bulkOperationsOp (st : Store) (reqUserId operation : String) (userIds : List String) :
    Resp × Store :=
  if operation == "" || userIds.isEmpty then
    (⟨400, false, "Operation and user IDs are required"⟩, st)
  else if userIds.contains reqUserId then
    (⟨400, false, "Cannot perform bulk operations on your own account"⟩, st)
  else if operation == "activate" then
    if !(userIds.all isCastableObjectId) then (⟨500, false, "Internal server error"⟩, st)
    else
      let n := (st.users.filter (fun u => userIds.contains u.id && !u.isActive)).length
      (⟨200, true, toString n ++ " users activated successfully"⟩, setActiveMany st userIds true)
  else if operation == "deactivate" then
    if !(userIds.all isCastableObjectId) then (⟨500, false, "Internal server error"⟩, st)
    else
      let n := (st.users.filter (fun u => userIds.contains u.id && u.isActive)).length
      (⟨200, true, toString n ++ " users deactivated successfully"⟩, setActiveMany st userIds false)
  else if operation == "delete" then
    if !(userIds.all isCastableObjectId) then (⟨500, false, "Internal server error"⟩, st)
    else
      let n := (st.users.filter (fun u => userIds.contains u.id)).length
      (⟨200, true, toString n ++ " users deleted successfully"⟩, removeMany st userIds)
  else
    (⟨400, false, "Invalid operation. Supported operations: activate, deactivate, delete"⟩, st)

/-! ## Helper lemmas -/

theorem data_stripPhone (s : String) :
    (stripPhone s).data = s.data.filter (fun c => isDigitChar c || c == '+') := rfl

theorem e164_startsWithPlus {t : String} (h : matchesE164 t = true) :
    startsWithPlus t = true := by
  unfold matchesE164 at h
  unfold startsWithPlus
  cases ht : t.data with
  | nil => rw [ht] at h; exact absurd h (by simp)
  | cons c rest =>
    rw [ht] at h
    cases rest with
    | nil => exact absurd h (by simp)
    | cons d rest2 =>
      simp only [Bool.and_eq_true] at h
      exact h.1.1.1.1

theorem processPhone_error_resp {s : String} {r : Resp}
    (h : processPhone s = .error r) : r.status = 400 ∧ r.success = false := by
  by_cases h1 : startsWithPlus (stripPhone s)
  · by_cases h2 : matchesE164 (stripPhone s)
    · simp [processPhone, h1, h2] at h
    · simp [processPhone, h1, h2] at h
      simp [← h]
  · simp [processPhone, h1] at h
    simp [← h]

theorem signupPhoneStep_error_status {st : Store} {phone : String} {r : Resp}
    (h : signupPhoneStep st phone = .error r) : r.status = 400 := by
  unfold signupPhoneStep at h
  split at h
  · exact absurd h (by simp)
  · split at h
    · rename_i r0 hr0
      injection h with h'
      exact h' ▸ (processPhone_error_resp hr0).1
    · split at h
      · injection h with h'
        exact h' ▸ rfl
      · exact absurd h (by simp)

theorem getPublicProfile_no_password (u : StoredUser) :
    "password" ∉ (getPublicProfile u).map Prod.fst := by
  intro hmem
  simp only [getPublicProfile, List.mem_map] at hmem
  obtain ⟨kv, hkv, hfst⟩ := hmem
  have hp := (List.mem_filter.mp hkv).2
  rw [hfst] at hp
  simp at hp

/-! ## Claim theorems -/

/-- C1: for every phone-number input to signup, phone update and profile
edit, the shared validation block accepts exactly when the stripped form
matches `+` then a nonzero digit then 1–14 more digits; every rejection is
a 400 validation failure; the accepted value is the stripped form; and
stripping removes only characters that are neither digits nor `+` (in
particular never a digit and never a leading `+`). -/
theorem phone_validation_accepts_iff_e164 (s : String) :
    ((∃ p, processPhone s = .ok p) ↔ matchesE164 (stripPhone s) = true)
  ∧ (∀ p, processPhone s = .ok p → p = stripPhone s)
  ∧ (∀ r, processPhone s = .error r → r.status = 400 ∧ r.success = false)
  ∧ (∀ c, c ∈ s.data → c ∉ (stripPhone s).data → isDigitChar c = false ∧ c ≠ '+') := by
  refine ⟨⟨?_, ?_⟩, ?_, ?_, ?_⟩
  · rintro ⟨p, hp⟩
    by_cases h1 : startsWithPlus (stripPhone s)
    · by_cases h2 : matchesE164 (stripPhone s)
      · exact h2
      · simp [processPhone, h1, h2] at hp
    · simp [processPhone, h1] at hp
  · intro h2
    exact ⟨stripPhone s, by simp [processPhone, e164_startsWithPlus h2, h2]⟩
  · intro p hp
    by_cases h1 : startsWithPlus (stripPhone s)
    · by_cases h2 : matchesE164 (stripPhone s)
      · simpa [processPhone, h1, h2] using hp.symm
      · simp [processPhone, h1, h2] at hp
    · simp [processPhone, h1] at hp
  · intro r hr
    by_cases h1 : startsWithPlus (stripPhone s)
    · by_cases h2 : matchesE164 (stripPhone s)
      · simp [processPhone, h1, h2] at hr
      · simp [processPhone, h1, h2] at hr
        simp [← hr]
    · simp [processPhone, h1] at hr
      simp [← hr]
  · intro c hc hnc
    have hpred : ¬((isDigitChar c || (c == '+')) = true) := fun hp =>
      hnc (by rw [data_stripPhone]; exact List.mem_filter.mpr ⟨hc, hp⟩)
    simp only [Bool.or_eq_true, not_or] at hpred
    refine ⟨by simpa using hpred.1, ?_⟩
    intro hceq
    exact hpred.2 (by simp [hceq])

/-- C1 witness: the validator accepts the concrete E.164 number
`+911234567890`. -/
theorem phone_validation_accepts_iff_e164_witness :
    ∃ p, processPhone "+911234567890" = .ok p :=
  (phone_validation_accepts_iff_e164 "+911234567890").1.mpr (by decide)

/-- C2 (documents the code defect): the signup handler hashes the password
*before* the schema's `minlength 6` validation runs, and a bcrypt digest is
always 60 characters, so the 5-character-password request the claim says
must be rejected is in fact accepted: the handler returns 201 and persists
a new user record. -/
theorem short_password_signup_creates_user :
    ("abc" : String).length < 6
  ∧ (bcryptHash "abc").length = 60
  ∧ passwordError (bcryptHash "abc") = none
  ∧ (signup ⟨[]⟩ 0 "id1" ⟨"Al", "Bo", "a@b.com", "abc", none, "", ""⟩).status = 201
  ∧ (signup ⟨[]⟩ 0 "id1" ⟨"Al", "Bo", "a@b.com", "abc", none, "", ""⟩).store.users.length = 1 := by
  decide

/-- C3: every token issued on user signup or login is `generateToken` of
the principal id — on signup the new record's id, on login the id of the
user record found for the request email — with payload `{userId}` only and
expiry 30 days (2592000 s); and every token issued on admin login carries
`{userId: 'admin', email, role: 'admin'}` and expires after 24 hours
(86400 s). -/
theorem user_and_admin_token_payloads :
    (∀ uid, generateToken uid = ⟨⟨uid, none, none⟩, 2592000⟩)
  ∧ (∀ st now newId inp kvs tok, (signup st now newId inp).data = some (kvs, tok) →
       tok = generateToken newId)
  ∧ (∀ st e p now kvs tok, (login st e p now).data = some (kvs, tok) →
       ∃ u, findOneByEmail st e = some u ∧ tok = generateToken u.id
         ∧ tok.payload = ⟨u.id, none, none⟩ ∧ tok.expiresInSeconds = 2592000)
  ∧ (∀ cfg e p tok au, (adminLogin cfg e p).data = some (tok, au) →
       tok.payload.userId = "admin" ∧ tok.payload.email = some (cfg.adminEmail.getD "")
         ∧ tok.payload.role = some "admin" ∧ tok.expiresInSeconds = 86400) := by
  refine ⟨fun uid => rfl, ?_, ?_, ?_⟩
  · intro st now newId inp kvs tok h
    unfold signup at h
    split at h
    · simp at h
    · split at h
      · simp at h
      · split at h
        · obtain ⟨-, htok⟩ := Prod.mk.inj (Option.some.inj h)
          exact htok.symm
        · simp at h
  · intro st e p now kvs tok h
    by_cases h0 : (e == "" || p == "") = true
    · simp [login, h0] at h
    · cases hf : findOneByEmail st e with
      | none => simp [login, h0, hf] at h
      | some u =>
        cases ha : u.isActive with
        | false => simp [login, h0, hf, ha] at h
        | true =>
          cases hc : bcryptCompare p u.password with
          | false => simp [login, h0, hf, ha, hc] at h
          | true =>
            have hL : (login st e p now).data
                = some (getPublicProfile { u with lastLoginAt := some now },
                        generateToken u.id) := by
              simp [login, h0, hf, ha, hc]
            rw [hL] at h
            obtain ⟨-, htok⟩ := Prod.mk.inj (Option.some.inj h)
            exact ⟨u, rfl, htok.symm, by rw [← htok]; rfl, by rw [← htok]; rfl⟩
  · intro cfg e p tok au h
    unfold adminLogin at h
    split at h
    · simp at h
    · split at h
      · simp at h
      · split at h
        · simp at h
        · split at h
          · simp at h
          · obtain ⟨htok, -⟩ := Prod.mk.inj (Option.some.inj h)
            rw [← htok]
            exact ⟨rfl, rfl, rfl, rfl⟩

/-- C3 witness: the concrete signup token for user id `u1`. -/
theorem user_and_admin_token_payloads_witness :
    generateToken "u1" = ⟨⟨"u1", none, none⟩, 2592000⟩ :=
  user_and_admin_token_payloads.1 "u1"

/-- C4: with both admin secrets configured, a request with the correct
admin email but a wrong password and a request with the correct admin
password but a wrong email produce identical responses — the same 401 and
the same generic message. -/
theorem admin_login_uniform_rejection (aE aP e p : String)
    (hE : aE ≠ "") (hP : aP ≠ "") (he : e ≠ aE) (heNE : e ≠ "")
    (hp : p ≠ aP) (hpNE : p ≠ "") :
    adminLogin ⟨some aE, some aP⟩ aE p = ⟨401, false, "Invalid admin credentials", none⟩
  ∧ adminLogin ⟨some aE, some aP⟩ e aP = ⟨401, false, "Invalid admin credentials", none⟩
  ∧ adminLogin ⟨some aE, some aP⟩ aE p = adminLogin ⟨some aE, some aP⟩ e aP := by
  have h1 : adminLogin ⟨some aE, some aP⟩ aE p
      = ⟨401, false, "Invalid admin credentials", none⟩ := by
    simp [adminLogin, truthy, hE, hP, hpNE, hp]
  have h2 : adminLogin ⟨some aE, some aP⟩ e aP
      = ⟨401, false, "Invalid admin credentials", none⟩ := by
    simp [adminLogin, truthy, hE, hP, heNE, he]
  exact ⟨h1, h2, h1.trans h2.symm⟩

/-- C4 witness: the two rejections at concrete credentials coincide. -/
theorem admin_login_uniform_rejection_witness :
    adminLogin ⟨some "admin@x.com", some "s3cret"⟩ "admin@x.com" "wrong"
      = adminLogin ⟨some "admin@x.com", some "s3cret"⟩ "other@x.com" "s3cret" :=
  (admin_login_uniform_rejection "admin@x.com" "s3cret" "other@x.com" "wrong"
    (by decide) (by decide) (by decide) (by decide) (by decide) (by decide)).2.2

/-- C5 counterexample: when the Cloudinary call *reports* failure
(`uploadResult.success === false`, no exception), the handler returns the
500 error but the early `return` skips the `unlinkSync`, so the temporary
upload file is still on disk — contradicting the claim that the temp file
has been removed whenever the handler returns an error. -/
theorem upload_report_failure_leaves_temp_file :
    profileUploadPhase true (.failReported "upload error")
      = ⟨some ⟨500, false, "Failed to upload profile picture"⟩, none, true⟩ := rfl

/-- C5 amended: when the upload call *throws*, the handler returns the 500
error and the temp file has been removed by the `catch` block; when the
upload *reports* failure without throwing, the handler returns the same 500
error but the temp file remains on disk; on success the file is removed and
no error is returned. -/
theorem upload_cleanup_by_outcome (e url : String) :
    profileUploadPhase true .threw
      = ⟨some ⟨500, false, "Failed to upload profile picture"⟩, none, false⟩
  ∧ profileUploadPhase true (.failReported e)
      = ⟨some ⟨500, false, "Failed to upload profile picture"⟩, none, true⟩
  ∧ profileUploadPhase true (.ok url) = ⟨none, some url, false⟩ :=
  ⟨rfl, rfl, rfl⟩

/-- C6 counterexample: a signup whose input has two invalid identity fields
(empty first name and malformed email) *and* an invalid phone number is
rejected by the eager phone check with a single message and an empty
`errors` array — not with one message per invalid field. -/
theorem invalid_phone_masks_batch_errors :
    firstNameError "" = some "First name is required"
  ∧ emailError "bad" = some "Please enter a valid email"
  ∧ (signup ⟨[]⟩ 0 "id1" ⟨"", "Bo", "bad", "secret1", none, "12345", ""⟩).status = 400
  ∧ (signup ⟨[]⟩ 0 "id1" ⟨"", "Bo", "bad", "secret1", none, "12345", ""⟩).errors = []
  ∧ (signup ⟨[]⟩ 0 "id1" ⟨"", "Bo", "bad", "secret1", none, "12345", ""⟩).message
      = "Phone number must start with country code (e.g., +91 for India)" := by
  decide

/-- C6 amended: when the request clears the controller-level checks
(email not already registered, phone absent or valid and unused) and the
document fails schema validation on two or more fields, the response is a
400 `Validation failed` carrying the full batch — one message per invalid
field. Phone-format failures, by contrast, are rejected eagerly with a
single message (see the counterexample). -/
theorem schema_validation_reports_all_fields (st : Store) (now : Int) (newId : String)
    (inp : SignupInput) (p : String)
    (hEmail : findOneByEmail st inp.email = none)
    (hPhone : signupPhoneStep st inp.phoneNumber = .ok p)
    (hLen : 2 ≤ (validateDoc now (buildDoc newId inp p)).length) :
    (signup st now newId inp).status = 400
  ∧ (signup st now newId inp).success = false
  ∧ (signup st now newId inp).message = "Validation failed"
  ∧ (signup st now newId inp).errors = validateDoc now (buildDoc newId inp p)
  ∧ 2 ≤ (signup st now newId inp).errors.length := by
  have hne : (validateDoc now (buildDoc newId inp p)).isEmpty = false := by
    cases hval : validateDoc now (buildDoc newId inp p) with
    | nil => rw [hval] at hLen; exact absurd hLen (by decide)
    | cons a l => simp
  refine ⟨?_, ?_, ?_, ?_, ?_⟩ <;> simp [signup, hEmail, hPhone, hne, hLen]

/-- C6 witness: a concrete signup with an empty first name and a malformed
email (and no phone) yields the two-message batch. -/
theorem schema_validation_reports_all_fields_witness :
    (signup ⟨[]⟩ 0 "id1" ⟨"", "Bo", "bad", "secret1", none, "", ""⟩).message
      = "Validation failed"
  ∧ 2 ≤ (signup ⟨[]⟩ 0 "id1" ⟨"", "Bo", "bad", "secret1", none, "", ""⟩).errors.length := by
  have h := schema_validation_reports_all_fields ⟨[]⟩ 0 "id1"
    ⟨"", "Bo", "bad", "secret1", none, "", ""⟩ "" (by decide) rfl (by decide)
  exact ⟨h.2.2.1, h.2.2.2.2⟩

/-- C7 counterexample: with both admin secrets absent, a request with a
blank email fails the request-field presence check first and receives a 400,
not the 500-class configuration error the claim requires for *every*
request under missing configuration (no token is issued either way). -/
theorem missing_config_blank_email_not_500 :
    (adminLogin ⟨none, none⟩ "" "pw").status = 400
  ∧ (adminLogin ⟨none, none⟩ "" "pw").status ≠ 500
  ∧ (adminLogin ⟨none, none⟩ "" "pw").data = none := by
  decide

/-- C7 amended: whenever either admin secret is unset (or empty), admin
login never succeeds and never issues a token; the body is one of two fixed
messages neither of which embeds a secret; and every request that supplies
both fields receives exactly the 500 `Admin configuration error`. -/
theorem missing_admin_config_rejects (cfg : AdminConfig) (e p : String)
    (hcfg : truthy cfg.adminEmail = false ∨ truthy cfg.adminPassword = false) :
    (adminLogin cfg e p).data = none
  ∧ (adminLogin cfg e p).success = false
  ∧ (adminLogin cfg e p).status ≠ 200
  ∧ ((adminLogin cfg e p).message = "Email and password are required"
       ∨ (adminLogin cfg e p).message = "Admin configuration error")
  ∧ (e ≠ "" → p ≠ "" → adminLogin cfg e p = ⟨500, false, "Admin configuration error", none⟩) := by
  have hc : (!truthy cfg.adminEmail || !truthy cfg.adminPassword) = true := by
    rcases hcfg with h | h <;> simp [h]
  by_cases h0 : (e == "" || p == "") = true
  · have hL : adminLogin cfg e p = ⟨400, false, "Email and password are required", none⟩ := by
      unfold adminLogin
      rw [if_pos h0]
    have hep : e = "" ∨ p = "" := by simpa using h0
    rw [hL]
    refine ⟨rfl, rfl, by decide, Or.inl rfl, fun he hp => ?_⟩
    rcases hep with h | h
    · exact absurd h he
    · exact absurd h hp
  · have hL : adminLogin cfg e p = ⟨500, false, "Admin configuration error", none⟩ := by
      unfold adminLogin
      rw [if_neg h0, if_pos hc]
    rw [hL]
    exact ⟨rfl, rfl, by decide, Or.inr rfl, fun _ _ => rfl⟩

/-- C7 witness: with the admin email unset, a well-formed login attempt
receives the 500 configuration error and no token. -/
theorem missing_admin_config_rejects_witness :
    adminLogin ⟨none, some "pw"⟩ "a@b.com" "pw"
      = ⟨500, false, "Admin configuration error", none⟩ :=
  (missing_admin_config_rejects ⟨none, some "pw"⟩ "a@b.com" "pw"
    (Or.inl rfl)).2.2.2.2 (by decide) (by decide)

/-- C8: every 201 signup response and every 200 login response carries a
`data` payload with a token and a public user object whose keys do not
include `password` — the stored bcrypt digest is never serialized. -/
theorem success_responses_omit_password (st : Store) (now : Int) (newId : String)
    (inp : SignupInput) (st2 : Store) (e p : String) (now2 : Int) :
    ((signup st now newId inp).status = 201 →
      ∃ kvs tok, (signup st now newId inp).data = some (kvs, tok)
        ∧ "password" ∉ kvs.map Prod.fst)
  ∧ ((login st2 e p now2).status = 200 →
      ∃ kvs tok, (login st2 e p now2).data = some (kvs, tok)
        ∧ "password" ∉ kvs.map Prod.fst) := by
  constructor
  · intro h201
    cases hm : findOneByEmail st inp.email with
    | some u => simp [signup, hm] at h201
    | none =>
      cases hp : signupPhoneStep st inp.phoneNumber with
      | error r =>
        have hst : (signup st now newId inp).status = r.status := by
          simp [signup, hm, hp]
        rw [h201, signupPhoneStep_error_status hp] at hst
        exact absurd hst (by decide)
      | ok q =>
        by_cases he : (validateDoc now (buildDoc newId inp q)).isEmpty = true
        · exact ⟨getPublicProfile (buildDoc newId inp q),
                 generateToken (buildDoc newId inp q).id,
                 by simp [signup, hm, hp, he], getPublicProfile_no_password _⟩
        · simp [signup, hm, hp, he] at h201
  · intro h200
    by_cases h0 : (e == "" || p == "") = true
    · simp [login, h0] at h200
    · cases hf : findOneByEmail st2 e with
      | none => simp [login, h0, hf] at h200
      | some u =>
        cases ha : u.isActive with
        | false => simp [login, h0, hf, ha] at h200
        | true =>
          cases hc : bcryptCompare p u.password with
          | false => simp [login, h0, hf, ha, hc] at h200
          | true =>
            exact ⟨getPublicProfile { u with lastLoginAt := some now2 },
                   generateToken u.id,
                   by simp [login, h0, hf, ha, hc], getPublicProfile_no_password _⟩

/-- C8 witness: a concrete successful signup's response data has a token
and no `password` key. -/
theorem success_responses_omit_password_witness :
    ∃ kvs tok,
      (signup ⟨[]⟩ 0 "id1" ⟨"Al", "Bo", "a@b.com", "secret1", none, "", ""⟩).data
        = some (kvs, tok)
      ∧ "password" ∉ kvs.map Prod.fst :=
  (success_responses_omit_password ⟨[]⟩ 0 "id1"
    ⟨"Al", "Bo", "a@b.com", "secret1", none, "", ""⟩ ⟨[]⟩ "" "" 0).1 (by decide)

/-- C9: a login that does not succeed — missing fields, unknown email,
deactivated account, or failed password comparison — returns the store
unchanged; and a 200 login implies the account was found, active, and the
password comparison succeeded, with only `lastLoginAt` updated. -/
theorem failed_login_preserves_store (st : Store) (e p : String) (now : Int) :
    ((login st e p now).status ≠ 200 → (login st e p now).store = st)
  ∧ ((login st e p now).status = 200 →
      ∃ u, findOneByEmail st e = some u ∧ u.isActive = true
        ∧ bcryptCompare p u.password = true
        ∧ (login st e p now).store = saveUser st { u with lastLoginAt := some now }) := by
  by_cases h0 : (e == "" || p == "") = true
  · have hL : login st e p now
        = ⟨400, false, "Please provide email and password", [], none, st⟩ := by
      unfold login
      rw [if_pos h0]
    rw [hL]
    exact ⟨fun _ => rfl, fun h => by simp at h⟩
  · cases hf : findOneByEmail st e with
    | none =>
      have hL : login st e p now
          = ⟨401, false, "Invalid email or password", [], none, st⟩ := by
        simp [login, h0, hf]
      rw [hL]
      exact ⟨fun _ => rfl, fun h => by simp at h⟩
    | some u =>
      cases ha : u.isActive with
      | false =>
        have hL : login st e p now
            = ⟨401, false, "Account is deactivated. Please contact support.", [], none, st⟩ := by
          simp [login, h0, hf, ha]
        rw [hL]
        exact ⟨fun _ => rfl, fun h => by simp at h⟩
      | true =>
        cases hc : bcryptCompare p u.password with
        | false =>
          have hL : login st e p now
              = ⟨401, false, "Invalid email or password", [], none, st⟩ := by
            simp [login, h0, hf, ha, hc]
          rw [hL]
          exact ⟨fun _ => rfl, fun h => by simp at h⟩
        | true =>
          have hL : login st e p now
              = ⟨200, true, "Login successful", [],
                 some (getPublicProfile { u with lastLoginAt := some now },
                       generateToken u.id),
                 saveUser st { u with lastLoginAt := some now }⟩ := by
            simp [login, h0, hf, ha, hc]
          rw [hL]
          exact ⟨fun hne => absurd rfl hne, fun _ => ⟨u, rfl, ha, hc, rfl⟩⟩

/-- C9 witness: logging in against an empty store changes nothing. -/
theorem failed_login_preserves_store_witness :
    (login ⟨[]⟩ "x@y.com" "pw" 5).store = ⟨[]⟩ :=
  (failed_login_preserves_store ⟨[]⟩ "x@y.com" "pw" 5).1 (by decide)

/-- C10 counterexample: the admin sentinel principal's id `'admin'` is not
a castable ObjectId, so an admin-delete or status-toggle request targeting
the principal's own id makes the `findById` query reject with a CastError
and the handler's `catch` returns 500 `Internal server error` — not the
400 the claim requires (the store is still untouched). -/
theorem sentinel_self_delete_is_500 :
    isCastableObjectId "admin" = false
  ∧ (deleteUserOp ⟨[]⟩ "admin" "admin").1.status = 500
  ∧ (deleteUserOp ⟨[]⟩ "admin" "admin").1.status ≠ 400
  ∧ (deleteUserOp ⟨[]⟩ "admin" "admin").2 = ⟨[]⟩
  ∧ (toggleUserStatusOp ⟨[]⟩ "admin" "admin" false).1.status = 500
  ∧ (toggleUserStatusOp ⟨[]⟩ "admin" "admin" false).2 = ⟨[]⟩ := by
  decide

/-- C10 amended: when the requesting principal's id is a castable ObjectId
with a stored record, self-targeted delete and self-deactivating toggle
are rejected with 400 and the store is unchanged; a bulk operation whose
id set contains the requester's id is rejected with 400 before any query,
unconditionally.  (The admin sentinel's non-castable id `'admin'` instead
makes the self-targeted delete/toggle queries reject, surfacing as a 500
that still mutates nothing — see the counterexample.) -/
theorem admin_self_protection (st : Store) (reqId : String) (u : StoredUser)
    (hcast : isCastableObjectId reqId = true)
    (hreq : findById st reqId = some u) (op : String) (ids : List String)
    (hop : (op == "") = false) (hids : ids.isEmpty = false)
    (hmem : ids.contains reqId = true) :
    deleteUserOp st reqId reqId = (⟨400, false, "Cannot delete your own account"⟩, st)
  ∧ toggleUserStatusOp st reqId reqId false
      = (⟨400, false, "Cannot deactivate your own account"⟩, st)
  ∧ bulkOperationsOp st reqId op ids
      = (⟨400, false, "Cannot perform bulk operations on your own account"⟩, st) := by
  refine ⟨?_, ?_, ?_⟩
  · simp [deleteUserOp, hcast, hreq]
  · simp [toggleUserStatusOp, hcast, hreq]
  · have hmem2 : reqId ∈ ids := by simpa using hmem
    simp [bulkOperationsOp, hop, hids, hmem2]

/-- C10 witness: a stored admin-role user (with a 24-hex-character
ObjectId) targeting itself is blocked with 400. -/
theorem admin_self_protection_witness :
    deleteUserOp ⟨[⟨"64a1b2c3d4e5f60718293a4b", "Al", "Bo", "a@b.com", "x", none, "", "",
        true, false, "admin", none⟩]⟩ "64a1b2c3d4e5f60718293a4b" "64a1b2c3d4e5f60718293a4b"
      = (⟨400, false, "Cannot delete your own account"⟩,
         ⟨[⟨"64a1b2c3d4e5f60718293a4b", "Al", "Bo", "a@b.com", "x", none, "", "",
            true, false, "admin", none⟩]⟩) :=
  (admin_self_protection ⟨[⟨"64a1b2c3d4e5f60718293a4b", "Al", "Bo", "a@b.com", "x", none,
      "", "", true, false, "admin", none⟩]⟩ "64a1b2c3d4e5f60718293a4b"
    ⟨"64a1b2c3d4e5f60718293a4b", "Al", "Bo", "a@b.com", "x", none, "", "", true, false,
      "admin", none⟩
    (by decide) (by decide) "delete" ["64a1b2c3d4e5f60718293a4b"]
    (by decide) (by decide) (by decide)).1

end BackendK
